import Mathlib

/-!
Shallow embedding of the NexusEngine core (C++ sources) used to check the
natural-language specification against the code.

Components modelled, each from its C++ source:
* `MetricsCollector` — cpp/src/metrics_collector.cpp and its header
  (the header declares `std::vector<uint64_t> latency_samples_`).
* `CoreEngine` — core_engine.cpp (lifecycle, configuration).
* `ThreadPool` — thread_pool.cpp / thread_pool.hpp (task submission path).
* `MemoryPool` — memory_pool.cpp.
* `LockFreeQueue` — the template implementation included from
  lock_free_queue.hpp (SPSC ring buffer with bitmask wrap-around).

Modelling conventions: the sequential (single-thread, interleaving-free)
semantics of each member function is embedded; `uint64_t` counters are `Nat`
with an explicit `% 2 ^ 64` where the source can overflow; `double` values
that are only stored and reloaded, or are exact quotients, are modelled as
`Rat` (the source's `(size_t)(size * 0.95)` style index truncations agree
with the exact `size * 95 / 100` Nat floor for every buffer size below
2 ^ 46, far beyond any realizable sample count); clock reads are passed in
as explicit `Nat` timestamps; C++ pointers are modelled as `Nat` identifiers
that are distinct for distinct `new[]` allocations.
-/

namespace Nexus

/-- UINT64_MAX, the initial value of `min_latency_us_`. -/
def UINT64_MAX : Nat := 2 ^ 64 - 1

/-- PercentileMetrics exactly as declared in the metrics header: five
`double` fields, default-initialized to zero.  (The header's struct has no
`min`/`max` members.) -/
structure PercentileMetrics where
  p50 : Rat := 0
  p95 : Rat := 0
  p99 : Rat := 0
  p999 : Rat := 0
  mean : Rat := 0
  deriving Repr, DecidableEq

/-- AggregatedMetrics as declared in the metrics header. -/
structure AggregatedMetrics where
  latency_us : PercentileMetrics := {}
  throughput_ops_sec : Rat := 0
  total_operations : Nat := 0
  total_errors : Nat := 0
  error_rate : Rat := 0
  queue_size : Nat := 0
  cpu_usage_percent : Rat := 0
  memory_bytes : Nat := 0
  uptime_seconds : Nat := 0
  deriving Repr, DecidableEq

/-- MetricsCollector state: the atomic counters, the gauges, the start time
and the (plain `std::vector`) latency sample buffer. -/
structure MetricsCollector where
  total_operations_ : Nat
  total_errors_ : Nat
  latency_sum_us_ : Nat
  min_latency_us_ : Nat
  max_latency_us_ : Nat
  queue_size_ : Nat
  cpu_usage_ : Rat
  memory_bytes_ : Nat
  start_time_ : Nat
  latency_samples_ : List Nat
  deriving Repr, DecidableEq

namespace MetricsCollector

/-- Constructor: member initializers zero the counters (`min_latency_us_`
starts at `UINT64_MAX`) and the constructor records the current time. -/
def init (now : Nat) : MetricsCollector :=
  { total_operations_ := 0
    total_errors_ := 0
    latency_sum_us_ := 0
    min_latency_us_ := UINT64_MAX
    max_latency_us_ := 0
    queue_size_ := 0
    cpu_usage_ := 0
    memory_bytes_ := 0
    start_time_ := now
    latency_samples_ := [] }

/-- `record_operation(latency_us, success)`: fetch-add on the operation,
error and latency-sum counters (64-bit wrap-around made explicit), the
min/max compare-exchange loops (whose sequential effect is taking the
min/max), and `latency_samples_.push_back(latency_us)`. -/
def record_operation (m : MetricsCollector) (latency_us : Nat) (success : Bool) :
    MetricsCollector :=
  { m with
    total_operations_ := (m.total_operations_ + 1) % 2 ^ 64
    total_errors_ :=
      if success then m.total_errors_ else (m.total_errors_ + 1) % 2 ^ 64
    latency_sum_us_ := (m.latency_sum_us_ + latency_us) % 2 ^ 64
    min_latency_us_ :=
      if latency_us < m.min_latency_us_ then latency_us else m.min_latency_us_
    max_latency_us_ :=
      if latency_us > m.max_latency_us_ then latency_us else m.max_latency_us_
    latency_samples_ := m.latency_samples_ ++ [latency_us] }

/-- `record_queue_size`: a plain atomic store. -/
def record_queue_size (m : MetricsCollector) (size : Nat) : MetricsCollector :=
  { m with queue_size_ := size }

/-- `record_cpu_usage`: a plain atomic store. -/
def record_cpu_usage (m : MetricsCollector) (usage : Rat) : MetricsCollector :=
  { m with cpu_usage_ := usage }

/-- `record_memory_usage`: a plain atomic store. -/
def record_memory_usage (m : MetricsCollector) (bytes : Nat) : MetricsCollector :=
  { m with memory_bytes_ := bytes }

/-- `calculate_percentiles()`: sorts a copy of `latency_samples_` ascending
and indexes it at `size / 2`, `size * 0.95`, `size * 0.99` (truncating
conversions, modelled as exact Nat floors) and, for `p999`, always at
`size - 1`; `mean` is the exact sample average. -/
def calculate_percentiles (samples : List Nat) : PercentileMetrics :=
  if samples.isEmpty then {}
  else
    let sorted := List.insertionSort (fun a b => a ≤ b) samples
    let size := sorted.length
    { p50 := (sorted.getD (size / 2) 0 : Nat)
      p95 := (sorted.getD (size * 95 / 100) 0 : Nat)
      p99 := (sorted.getD (size * 99 / 100) 0 : Nat)
      p999 := (sorted.getD (size - 1) 0 : Nat)
      mean := (sorted.sum : Rat) / (size : Rat) }

/-- `get_aggregated()` at clock reading `now`.  The function first fills the
counter-derived fields, then assigns `agg.latency_us = calculate_percentiles()`
as its final step, so the whole latency block of the returned snapshot is the
percentile struct (the earlier partial latency assignments in the source are
overwritten by that struct assignment, and the loaded `min_latency_us_` /
`max_latency_us_` values do not appear in the result). -/
def get_aggregated (m : MetricsCollector) (now : Nat) : AggregatedMetrics :=
  let total := m.total_operations_
  let errors := m.total_errors_
  let uptime := now - m.start_time_
  { latency_us := calculate_percentiles m.latency_samples_
    total_operations := total
    total_errors := errors
    error_rate := if total > 0 then (errors : Rat) / (total : Rat) else 0
    queue_size := m.queue_size_
    cpu_usage_percent := m.cpu_usage_
    memory_bytes := m.memory_bytes_
    uptime_seconds := uptime
    throughput_ops_sec := if uptime > 0 then (total : Rat) / (uptime : Rat) else 0 }

/-- `reset()`: zeroes the counters, re-arms min/max, clears the sample
buffer and restarts the uptime clock.  The gauges are not touched. -/
def reset (m : MetricsCollector) (now : Nat) : MetricsCollector :=
  { m with
    total_operations_ := 0
    total_errors_ := 0
    latency_sum_us_ := 0
    min_latency_us_ := UINT64_MAX
    max_latency_us_ := 0
    latency_samples_ := []
    start_time_ := now }

end MetricsCollector

/-- Collector obtained by recording the same sample `n` times from a fresh
collector (used to exhibit unbounded sample-buffer growth). -/
def recordN : Nat → MetricsCollector
  | 0 => MetricsCollector.init 0
  | n + 1 => (recordN n).record_operation 7 true

theorem recordN_samples_length (n : Nat) :
    (recordN n).latency_samples_.length = n := by
  induction n with
  | zero => rfl
  | succ n ih =>
      simp [recordN, MetricsCollector.record_operation, ih]

/-- C1: the claim is false: the sample buffer is a plain `std::vector` that
`record_operation` grows by `push_back` on every call, so no fixed capacity
bounds the number of retained samples (recording the sample 7 repeatedly
from a fresh collector retains every sample). -/
theorem C1_counterexample :
    ¬ ∃ C : Nat, ∀ n : Nat, (recordN n).latency_samples_.length ≤ C := by
  rintro ⟨C, h⟩
  have hC := h (C + 1)
  rw [recordN_samples_length] at hC
  omega

/-- C1 (amended): `record_operation` always appends the new sample to the
end of `latency_samples_`; the buffer grows by one on every call and no
sample is ever overwritten or discarded. -/
theorem C1_amended (m : MetricsCollector) (latency_us : Nat) (success : Bool) :
    (m.record_operation latency_us success).latency_samples_
        = m.latency_samples_ ++ [latency_us] ∧
    (m.record_operation latency_us success).latency_samples_.length
        = m.latency_samples_.length + 1 := by
  constructor
  · rfl
  · simp [MetricsCollector.record_operation]

set_option maxRecDepth 10000

/-- Samples 1, 2, ..., 1002: a buffer large enough that `floor(N * 0.999)`
differs from `N - 1`. -/
def samples1002 : List Nat := (List.range 1002).map (· + 1)

/-- C4: the claim is false for p999 on large buffers: the code computes
`p999 = sorted[size - 1]` (the maximum) for every N, not only for small N.
With the 1002 samples 1..1002 the claim's index `floor(N * 0.999) = 1000`
selects 1001, while the code returns 1002. -/
theorem C4_counterexample :
    (MetricsCollector.calculate_percentiles samples1002).p999 = 1002 ∧
    ((List.insertionSort (fun a b => a ≤ b) samples1002).getD
        (1002 * 999 / 1000) 0 : Nat) = 1001 ∧
    (1002 : Rat) ≠ (1001 : Nat) := by
  refine ⟨by decide, by decide, by decide⟩

/-- Collector state after recording the 100 integers 1..100 (µs), each as a
successful operation, starting from a fresh collector. -/
def collector100 : MetricsCollector :=
  (List.range 100).foldl
    (fun m i => m.record_operation (i + 1) true) (MetricsCollector.init 0)

/-- C4 (amended): `calculate_percentiles` indexes the sorted ascending view
of the samples at `⌊N/2⌋`, `⌊N·95/100⌋`, `⌊N·99/100⌋` — all of which lie in
`[0, N-1]` — and takes `p999 = sorted[N-1]` (the maximum) for every N, not
only for small N; recording 1..100 yields p50 = 51 and p999 = 100. -/
theorem C4_amended (samples : List Nat) (h : samples ≠ []) :
    List.Perm (List.insertionSort (fun a b => a ≤ b) samples) samples ∧
    (List.insertionSort (fun a b => a ≤ b) samples).Sorted (· ≤ ·) ∧
    (MetricsCollector.calculate_percentiles samples).p50 =
      ((List.insertionSort (fun a b => a ≤ b) samples).getD
        (samples.length / 2) 0 : Nat) ∧
    (MetricsCollector.calculate_percentiles samples).p95 =
      ((List.insertionSort (fun a b => a ≤ b) samples).getD
        (samples.length * 95 / 100) 0 : Nat) ∧
    (MetricsCollector.calculate_percentiles samples).p99 =
      ((List.insertionSort (fun a b => a ≤ b) samples).getD
        (samples.length * 99 / 100) 0 : Nat) ∧
    (MetricsCollector.calculate_percentiles samples).p999 =
      ((List.insertionSort (fun a b => a ≤ b) samples).getD
        (samples.length - 1) 0 : Nat) ∧
    samples.length / 2 < samples.length ∧
    samples.length * 95 / 100 < samples.length ∧
    samples.length * 99 / 100 < samples.length ∧
    samples.length - 1 < samples.length ∧
    (collector100.get_aggregated 3).latency_us.p50 = 51 ∧
    (collector100.get_aggregated 3).latency_us.p999 = 100 := by
  have hne : samples.isEmpty = false := by
    cases samples with
    | nil => exact absurd rfl h
    | cons a l => rfl
  have hlen : (List.insertionSort (fun a b => a ≤ b) samples).length
      = samples.length :=
    (List.perm_insertionSort (fun a b => a ≤ b) samples).length_eq
  have hpos : 0 < samples.length := by
    cases samples with
    | nil => exact absurd rfl h
    | cons a l => simp
  refine ⟨List.perm_insertionSort _ samples,
    List.sorted_insertionSort _ samples, ?_, ?_, ?_, ?_, ?_, ?_, ?_, ?_,
    by decide, by decide⟩
  · simp [MetricsCollector.calculate_percentiles, hne, hlen]
  · simp [MetricsCollector.calculate_percentiles, hne, hlen]
  · simp [MetricsCollector.calculate_percentiles, hne, hlen]
  · simp [MetricsCollector.calculate_percentiles, hne, hlen]
  · exact Nat.div_lt_self hpos (by omega)
  · exact Nat.div_lt_of_lt_mul (by omega)
  · exact Nat.div_lt_of_lt_mul (by omega)
  · omega

/-- C4 (witness): the amended theorem applied to the concrete sample list
[2, 5, 3]. -/
theorem C4_amended_witness :
    ([2, 5, 3] ≠ ([] : List Nat)) ∧
    (MetricsCollector.calculate_percentiles [2, 5, 3]).p999 =
      ((List.insertionSort (fun a b => a ≤ b) [2, 5, 3]).getD
        (([2, 5, 3] : List Nat).length - 1) 0 : Nat) :=
  ⟨by decide, (C4_amended [2, 5, 3] (by decide)).2.2.2.2.2.1⟩

/-- Collector state after `record_operation(2, true)` then
`record_operation(9, true)` from a fresh collector. -/
def collector29 : MetricsCollector :=
  ((MetricsCollector.init 0).record_operation 2 true).record_operation 9 true

/-- C5: evaluation at the failing input.  After recording the successful
latencies 2 and 9, the internal CAS-maintained counters hold the correct
minimum 2 and maximum 9, and `total_operations` and the mean are reported
correctly — but the snapshot's whole latency block is the percentile struct
assigned last in `get_aggregated` ({p50, p95, p99, p999, mean} only), so
the recorded minimum 2 appears nowhere in the returned aggregate: the
claim's `min == min(latencies)` / `max == max(latencies)` fields are lost. -/
theorem C5_bug :
    collector29.min_latency_us_ = 2 ∧
    collector29.max_latency_us_ = 9 ∧
    (collector29.get_aggregated 0).total_operations = 2 ∧
    (collector29.get_aggregated 0).latency_us.p50 = 9 ∧
    (collector29.get_aggregated 0).latency_us.p95 = 9 ∧
    (collector29.get_aggregated 0).latency_us.p99 = 9 ∧
    (collector29.get_aggregated 0).latency_us.p999 = 9 ∧
    (collector29.get_aggregated 0).latency_us.mean = 11 / 2 := by
  refine ⟨by decide, by decide, by decide, by decide, by decide, by decide,
    by decide, ?_⟩
  norm_num [collector29, MetricsCollector.init, MetricsCollector.record_operation,
    MetricsCollector.get_aggregated, MetricsCollector.calculate_percentiles,
    List.insertionSort, List.orderedInsert]

/-- C10: `reset()` rebuilds exactly the freshly-initialized counter state
(counters zeroed, min/max re-armed, samples cleared, uptime clock restarted)
while carrying the three gauges over unchanged, and a `get_aggregated`
immediately after the reset therefore still reports the queue-size,
cpu-usage and memory gauge values recorded before the reset. -/
theorem C10_reset_frame (m : MetricsCollector) (resetTime now : Nat) :
    m.reset resetTime =
      { MetricsCollector.init resetTime with
        queue_size_ := m.queue_size_
        cpu_usage_ := m.cpu_usage_
        memory_bytes_ := m.memory_bytes_ } ∧
    ((m.reset resetTime).get_aggregated now).queue_size =
      (m.get_aggregated now).queue_size ∧
    ((m.reset resetTime).get_aggregated now).cpu_usage_percent =
      (m.get_aggregated now).cpu_usage_percent ∧
    ((m.reset resetTime).get_aggregated now).memory_bytes =
      (m.get_aggregated now).memory_bytes ∧
    ((m.reset resetTime).get_aggregated now).queue_size = m.queue_size_ ∧
    ((m.reset resetTime).get_aggregated now).cpu_usage_percent = m.cpu_usage_ ∧
    ((m.reset resetTime).get_aggregated now).memory_bytes = m.memory_bytes_ := by
  exact ⟨rfl, rfl, rfl, rfl, rfl, rfl, rfl⟩

/-- EngineState enum from core_engine.hpp. -/
inductive EngineState where
  | STOPPED
  | RUNNING
  | PAUSED
  | ERROR
  deriving Repr, DecidableEq

/-- EngineConfig from core_engine.hpp (the timeout is carried in
milliseconds; `num_threads` defaults to the machine's hardware concurrency
in the source, so configs are always passed explicitly here). -/
structure EngineConfig where
  num_threads : Nat
  queue_capacity : Nat
  batch_size : Nat
  timeout_ms : Nat
  enable_metrics : Bool
  enable_logging : Bool
  deriving Repr, DecidableEq

/-- CoreEngine state: the stored configuration, the atomic state enum, the
worker-thread vector (modelled by its length) and the engine metrics'
`active_threads` counter, the only metrics field the lifecycle functions
touch. -/
structure CoreEngine where
  config_ : EngineConfig
  state_ : EngineState
  workers_ : Nat
  active_threads_ : Nat
  deriving Repr, DecidableEq

namespace CoreEngine

/-- Constructor `CoreEngine::CoreEngine(const EngineConfig&)`: stores the
configuration and initializes the state to STOPPED.  It performs no
validation of any kind (the optional logging branch has no state effect). -/
def construct (config : EngineConfig) : CoreEngine :=
  { config_ := config
    state_ := EngineState.STOPPED
    workers_ := 0
    active_threads_ := 0 }

/-- `start()`: early-returns unless STOPPED; otherwise sets RUNNING, spawns
`num_threads` workers and publishes the active-thread count. -/
def start (e : CoreEngine) : CoreEngine :=
  if e.state_ ≠ EngineState.STOPPED then e
  else
    { e with
      state_ := EngineState.RUNNING
      workers_ := e.workers_ + e.config_.num_threads
      active_threads_ := e.config_.num_threads }

/-- `stop()`: compare-exchanges RUNNING→STOPPED, and failing that
PAUSED→STOPPED (any other state is left as it is); then unconditionally
joins and clears the workers and zeroes the active-thread count. -/
def stop (e : CoreEngine) : CoreEngine :=
  let s :=
    if e.state_ = EngineState.RUNNING ∨ e.state_ = EngineState.PAUSED then
      EngineState.STOPPED
    else e.state_
  { e with state_ := s, workers_ := 0, active_threads_ := 0 }

/-- `pause()`: an unconditional store of PAUSED, with no guard on the
current state. -/
def pause (e : CoreEngine) : CoreEngine :=
  { e with state_ := EngineState.PAUSED }

/-- `resume()`: sets RUNNING only if currently PAUSED. -/
def resume (e : CoreEngine) : CoreEngine :=
  if e.state_ = EngineState.PAUSED then { e with state_ := EngineState.RUNNING }
  else e

/-- `is_running()`. -/
def is_running (e : CoreEngine) : Bool :=
  e.state_ = EngineState.RUNNING

/-- `set_config(config)`: replaces the stored configuration whenever
`is_running()` is false; while RUNNING it does nothing and reports
nothing. -/
def set_config (e : CoreEngine) (config : EngineConfig) : CoreEngine :=
  if e.is_running then e else { e with config_ := config }

end CoreEngine

/-- ConfigError from the specification's error taxonomy (§7). -/
inductive ConfigError where
  | configError
  deriving Repr, DecidableEq

/-- Power-of-two test used to state the specification's validity rule. -/
def isPowerOfTwo (n : Nat) : Bool :=
  n ≠ 0 && n &&& (n - 1) = 0

/-- Specification-side constructor, written from the spec's words (§3, §6):
`Engine::new(config) -> Result<Engine, ConfigError>`, rejecting the config
when `queue_capacity` is not a power of two or `thread_count` is zero.  It
exists only to be compared with the source's `CoreEngine.construct`. -/
def spec_construct (c : EngineConfig) : Except ConfigError CoreEngine :=
  if isPowerOfTwo c.queue_capacity ∧ c.num_threads ≠ 0 then
    Except.ok (CoreEngine.construct c)
  else Except.error ConfigError.configError

/-- Configuration that the specification's rule rejects on both counts:
zero threads and a non-power-of-two queue capacity. -/
def badConfig : EngineConfig :=
  { num_threads := 0
    queue_capacity := 3
    batch_size := 1024
    timeout_ms := 5000
    enable_metrics := true
    enable_logging := true }

/-- C2: the claim is false: the engine constructor validates nothing.  The
spec-side constructor rejects `badConfig` (thread count 0, queue capacity 3)
with ConfigError, but the source constructor succeeds on it, producing a
fully constructed STOPPED engine holding the invalid configuration. -/
theorem C2_counterexample :
    spec_construct badConfig = Except.error ConfigError.configError ∧
    CoreEngine.construct badConfig =
      { config_ := badConfig
        state_ := EngineState.STOPPED
        workers_ := 0
        active_threads_ := 0 } := by
  refine ⟨rfl, by decide⟩

/-- C2 (amended): construction never fails and never validates: for every
configuration — valid or not — the constructor succeeds and yields the
engine with that configuration stored, state STOPPED and no workers. -/
theorem C2_amended (config : EngineConfig) :
    CoreEngine.construct config =
      { config_ := config
        state_ := EngineState.STOPPED
        workers_ := 0
        active_threads_ := 0 } := rfl

/-- Engine constructed from an arbitrary concrete valid configuration and
left in its initial STOPPED state. -/
def engineStopped : CoreEngine :=
  CoreEngine.construct
    { num_threads := 4
      queue_capacity := 1024
      batch_size := 1024
      timeout_ms := 5000
      enable_metrics := true
      enable_logging := false }

/-- C3: the claim is false: `pause()` stores PAUSED unconditionally, so
pausing a freshly constructed (STOPPED) engine moves it to PAUSED instead
of leaving it STOPPED. -/
theorem C3_counterexample :
    engineStopped.state_ = EngineState.STOPPED ∧
    engineStopped.pause.state_ = EngineState.PAUSED ∧
    EngineState.PAUSED ≠ EngineState.STOPPED := by
  refine ⟨by decide, by decide, by decide⟩

/-- C3 (amended): the lifecycle transitions are: start moves STOPPED to
RUNNING and is a no-op elsewhere; stop moves RUNNING or PAUSED to STOPPED
and is a no-op elsewhere; resume moves PAUSED to RUNNING and is a no-op
elsewhere; but pause moves every state — including STOPPED and ERROR — to
PAUSED. -/
theorem C3_amended (e : CoreEngine) :
    e.start.state_ =
      (if e.state_ = EngineState.STOPPED then EngineState.RUNNING
       else e.state_) ∧
    e.stop.state_ =
      (if e.state_ = EngineState.RUNNING ∨ e.state_ = EngineState.PAUSED then
        EngineState.STOPPED
       else e.state_) ∧
    e.pause.state_ = EngineState.PAUSED ∧
    e.resume.state_ =
      (if e.state_ = EngineState.PAUSED then EngineState.RUNNING
       else e.state_) := by
  cases h : e.state_ <;>
    simp [CoreEngine.start, CoreEngine.stop, CoreEngine.pause,
      CoreEngine.resume, h]

/-- Engine in the PAUSED state holding `badConfig`-unrelated configuration,
used to show `set_config` succeeds while not STOPPED. -/
def enginePaused : CoreEngine := engineStopped.pause

/-- Alternative configuration distinct from the paused engine's one. -/
def altConfig : EngineConfig :=
  { num_threads := 8
    queue_capacity := 2048
    batch_size := 512
    timeout_ms := 1000
    enable_metrics := false
    enable_logging := false }

/-- C7: the claim is false on both sides: `set_config` on a PAUSED engine
(a non-Stopped state) silently succeeds and replaces the stored
configuration instead of failing with InvalidStateError, and on a RUNNING
engine it is exactly the silent no-op the spec forbids (the function
returns void and has no error path at all). -/
theorem C7_counterexample :
    enginePaused.state_ = EngineState.PAUSED ∧
    (enginePaused.set_config altConfig).config_ = altConfig ∧
    altConfig ≠ enginePaused.config_ ∧
    engineStopped.start.state_ = EngineState.RUNNING ∧
    (engineStopped.start.set_config altConfig) = engineStopped.start := by
  refine ⟨by decide, by decide, by decide, by decide, by decide⟩

/-- C7 (amended): `set_config` replaces the stored configuration exactly
when the engine is not RUNNING — so also while PAUSED or in ERROR — and is
a silent no-op while RUNNING; it never surfaces an error and never changes
the lifecycle state. -/
theorem C7_amended (e : CoreEngine) (config : EngineConfig) :
    (e.set_config config).config_ =
      (if e.state_ = EngineState.RUNNING then e.config_ else config) ∧
    (e.set_config config).state_ = e.state_ := by
  cases h : e.state_ <;>
    simp [CoreEngine.set_config, CoreEngine.is_running, h]

/-- Outcome stored in the `std::promise` of a submitted task: either the
task's value was set, or the exception thrown by the task body was caught
by the submission wrapper and stored. -/
inductive TaskOutcome where
  | ok
  | threw (msg : String)
  deriving Repr, DecidableEq

/-- TaskStats from thread_pool.hpp. -/
structure TaskStats where
  total_tasks : Nat := 0
  completed_tasks : Nat := 0
  failed_tasks : Nat := 0
  deriving Repr, DecidableEq

/-- ThreadPool state relevant to task accounting: the stats block and the
sequence of promise results produced by submitted tasks.  A task body is
modelled by the result of invoking it: `Except.ok ()` for a normal return,
`Except.error msg` for a thrown exception. -/
structure ThreadPoolState where
  stats_ : TaskStats := {}
  promises : List TaskOutcome := []
  deriving Repr, DecidableEq

namespace ThreadPoolState

/-- Lambda built by `submit_with_priority`: it runs the body inside
`try { ... promise->set_value(...) } catch (...) { promise->set_exception }`,
so the wrapped `std::function` itself always returns normally and the
body's exception, if any, ends up in the promise. -/
def wrap (body : Except String Unit) : TaskOutcome :=
  match body with
  | Except.ok _ => TaskOutcome.ok
  | Except.error msg => TaskOutcome.threw msg

/-- `enqueue_task`: increments `total_tasks`, invokes the (non-null wrapped)
task — which stores its outcome in the promise and does not throw — then
increments `completed_tasks`.  No path increments `failed_tasks`. -/
def enqueue_task (p : ThreadPoolState) (t : TaskOutcome) : ThreadPoolState :=
  { p with
    stats_ :=
      { p.stats_ with
        total_tasks := p.stats_.total_tasks + 1
        completed_tasks := p.stats_.completed_tasks + 1 }
    promises := p.promises ++ [t] }

/-- `submit` / `submit_with_priority`: wraps the body and hands the wrapped
task to `enqueue_task`, returning the future of the recorded promise. -/
def submit (p : ThreadPoolState) (body : Except String Unit) : ThreadPoolState :=
  p.enqueue_task (wrap body)

end ThreadPoolState

/-- C8: the claim is false in its counting part: submitting a task whose
body throws leaves `failed_tasks` at 0 (no code path ever increments it)
and instead increments `completed_tasks`, exactly as for a succeeding task.
The exception itself is caught (it is stored in the promise, and the next
submission proceeds normally), but the execution is never counted as a
failed operation. -/
theorem C8_counterexample :
    ((ThreadPoolState.submit {} (Except.error "task body exception")).stats_
      = { total_tasks := 1, completed_tasks := 1, failed_tasks := 0 }) ∧
    ((ThreadPoolState.submit {} (Except.error "task body exception")).promises
      = [TaskOutcome.threw "task body exception"]) ∧
    (0 : Nat) ≠ 1 := by
  refine ⟨by decide, by decide, by decide⟩

/-- C8 (amended): an exception thrown by a task body is caught at the
submission wrapper and recorded in the task's promise; processing continues
(every subsequent submission is accounted identically), but the failure is
not counted: `failed_tasks` never changes and `completed_tasks` is
incremented even for a throwing task. -/
theorem C8_amended (p : ThreadPoolState) (msg : String) :
    (p.submit (Except.error msg)).stats_.failed_tasks =
      p.stats_.failed_tasks ∧
    (p.submit (Except.error msg)).stats_.completed_tasks =
      p.stats_.completed_tasks + 1 ∧
    (p.submit (Except.error msg)).stats_.total_tasks =
      p.stats_.total_tasks + 1 ∧
    (p.submit (Except.error msg)).promises =
      p.promises ++ [TaskOutcome.threw msg] := by
  exact ⟨rfl, rfl, rfl, rfl⟩

/-- Block from memory_pool.hpp: the `new[]`-allocated data pointer
(modelled as a `Nat` identifier) and the allocated flag. -/
structure Block where
  data : Nat
  allocated : Bool
  deriving Repr, DecidableEq

/-- MemoryPool state from memory_pool.hpp. -/
structure MemoryPool where
  block_size_ : Nat
  blocks_ : List Block
  free_count_ : Nat
  total_allocations_ : Nat
  total_deallocations_ : Nat
  deriving Repr, DecidableEq

namespace MemoryPool

/-- Scan of `deallocate`'s loop over the block vector: flips the first
block whose data pointer matches `ptr` and is currently allocated, and
reports whether such a block was found. -/
def deallocScan (ptr : Nat) : List Block → List Block × Bool
  | [] => ([], false)
  | b :: rest =>
      if b.data = ptr ∧ b.allocated then
        ({ b with allocated := false } :: rest, true)
      else
        let r := deallocScan ptr rest
        (b :: r.1, r.2)

/-- `deallocate(ptr)`: walks the blocks; on the first match of an allocated
block with this data pointer it clears the flag, increments `free_count_`
and `total_deallocations_` and returns; if no block matches, the function
falls off the loop and changes nothing. -/
def deallocate (p : MemoryPool) (ptr : Nat) : MemoryPool :=
  let r := deallocScan ptr p.blocks_
  if r.2 then
    { p with
      blocks_ := r.1
      free_count_ := p.free_count_ + 1
      total_deallocations_ := p.total_deallocations_ + 1 }
  else p

/-- Scan of `allocate`'s loop: claims the first non-allocated block,
returning its data pointer. -/
def allocScan : List Block → List Block × Option Nat
  | [] => ([], none)
  | b :: rest =>
      if b.allocated then
        let r := allocScan rest
        (b :: r.1, r.2)
      else ({ b with allocated := true } :: rest, some b.data)

/-- `allocate()`: only scans when `has_free_blocks()`; on success claims the
block, decrements `free_count_`, bumps `total_allocations_` and returns the
block's data pointer, otherwise returns null (`none`). -/
def allocate (p : MemoryPool) : MemoryPool × Option Nat :=
  if p.free_count_ > 0 then
    let r := allocScan p.blocks_
    match r.2 with
    | some ptr =>
        ({ p with
            blocks_ := r.1
            free_count_ := p.free_count_ - 1
            total_allocations_ := p.total_allocations_ + 1 }, some ptr)
    | none => (p, none)
  else (p, none)

end MemoryPool

theorem deallocScan_not_found (ptr : Nat) (blocks : List Block)
    (h : ∀ b ∈ blocks, b.data = ptr → b.allocated = false) :
    MemoryPool.deallocScan ptr blocks = (blocks, false) := by
  induction blocks with
  | nil => rfl
  | cons b rest ih =>
      have hb : ¬(b.data = ptr ∧ b.allocated) := by
        rintro ⟨hdata, halloc⟩
        have := h b (List.mem_cons_self b rest) hdata
        rw [this] at halloc
        exact Bool.false_ne_true halloc
      have hrest : MemoryPool.deallocScan ptr rest = (rest, false) :=
        ih fun x hx => h x (List.mem_cons_of_mem b hx)
      simp [MemoryPool.deallocScan, hb, hrest]

/-- C9: `deallocate` with a pointer that is not the data pointer of a
currently-allocated block (an already-freed block or a foreign pointer)
finds no matching block, so it returns the pool completely unchanged: every
block's allocated flag, `free_count_`, `total_allocations_` and
`total_deallocations_` keep their values. -/
theorem C9_deallocate_foreign (p : MemoryPool) (ptr : Nat)
    (h : ∀ b ∈ p.blocks_, b.data = ptr → b.allocated = false) :
    p.deallocate ptr = p := by
  unfold MemoryPool.deallocate
  rw [deallocScan_not_found ptr p.blocks_ h]
  simp

/-- Concrete two-block pool: block 0 allocated, block 1 free. -/
def pool2 : MemoryPool :=
  { block_size_ := 64
    blocks_ := [{ data := 0, allocated := true }, { data := 1, allocated := false }]
    free_count_ := 1
    total_allocations_ := 1
    total_deallocations_ := 0 }

/-- C9 (witness): deallocating the foreign pointer 99 from the concrete
pool leaves it unchanged; the pointer matches no allocated block. -/
theorem C9_witness :
    (∀ b ∈ pool2.blocks_, b.data = 99 → b.allocated = false) ∧
    pool2.deallocate 99 = pool2 :=
  ⟨by decide, C9_deallocate_foreign pool2 99 (by decide)⟩

/-- LockFreeQueue<T> state from lock_free_queue.hpp: the slot array
(`Node::data` values), the two uint32 cursors, the capacity and the
bitmask `capacity - 1`. -/
structure LockFreeQueue (α : Type) where
  buffer_ : List α
  head_ : Nat
  tail_ : Nat
  capacity_ : Nat
  mask_ : Nat
  deriving Repr, DecidableEq

namespace LockFreeQueue

/-- Constructor `LockFreeQueue(uint32_t capacity)`: allocates `capacity`
default-constructed nodes; cursors start at 0 and `mask_ = capacity - 1`. -/
def mkQueue (α : Type) [Inhabited α] (capacity : Nat) : LockFreeQueue α :=
  { buffer_ := List.replicate capacity default
    head_ := 0
    tail_ := 0
    capacity_ := capacity
    mask_ := capacity - 1 }

/-- `enqueue(value)`: computes `next_tail = (tail + 1) & mask_`; if it hits
the head the queue is full and the call returns false without touching
anything; otherwise the slot at `tail` is written and the tail advances. -/
def enqueue (q : LockFreeQueue α) (value : α) : LockFreeQueue α × Bool :=
  let next_tail := (q.tail_ + 1) &&& q.mask_
  if next_tail = q.head_ then (q, false)
  else
    ({ q with buffer_ := q.buffer_.set q.tail_ value, tail_ := next_tail },
      true)

/-- `dequeue(value&)`: returns false (here `none`) without touching
anything when `head == tail`; otherwise reads the slot at `head` and
advances the head by `(head + 1) & mask_`. -/
def dequeue [Inhabited α] (q : LockFreeQueue α) :
    LockFreeQueue α × Option α :=
  if q.head_ = q.tail_ then (q, none)
  else
    ({ q with head_ := (q.head_ + 1) &&& q.mask_ },
      some (q.buffer_.getD q.head_ default))

/-- `size()`: `(tail - head) & mask_` with uint32 wrap-around subtraction
made explicit. -/
def size (q : LockFreeQueue α) : Nat :=
  ((2 ^ 32 + q.tail_ - q.head_) % 2 ^ 32) &&& q.mask_

end LockFreeQueue

/-- Freshly constructed queue of capacity 4 over Nat. -/
def q4 : LockFreeQueue Nat := LockFreeQueue.mkQueue Nat 4

/-- C6: the claim's capacity accounting is false: a queue constructed with
capacity 4 rejects the 4th enqueue while holding only 3 elements (the
implementation treats `next_tail == head` as full, reserving one slot), so
no reachable state of a capacity-C queue ever holds C elements, and
rejection happens at C-1. -/
theorem C6_counterexample :
    ((q4.enqueue 1).1.enqueue 2).2 = true ∧
    (((q4.enqueue 1).1.enqueue 2).1.enqueue 3).2 = true ∧
    ((((q4.enqueue 1).1.enqueue 2).1.enqueue 3).1.enqueue 4).2 = false ∧
    ((((q4.enqueue 1).1.enqueue 2).1.enqueue 3).1.enqueue 4).1 =
      (((q4.enqueue 1).1.enqueue 2).1.enqueue 3).1 ∧
    LockFreeQueue.size (((q4.enqueue 1).1.enqueue 2).1.enqueue 3).1 = 3 ∧
    q4.capacity_ = 4 := by
  refine ⟨by decide, by decide, by decide, by decide, by decide, by decide⟩

/-- C6 (amended): for a queue with power-of-two mask arithmetic
(`mask_ = 2^k - 1`, `k ≥ 1`, cursors in range): dequeue on an empty queue
(`head == tail`) returns `none` and leaves the queue untouched; when the
queue is full in the implementation's sense (`(tail + 1) & mask == head`,
i.e. it holds capacity - 1 elements), enqueue fails returning `false`
without modifying contents or cursors, and after one dequeue a subsequent
enqueue succeeds. -/
theorem C6_amended {α : Type} [Inhabited α] (q : LockFreeQueue α) (k : Nat)
    (v : α) (hk : 1 ≤ k) (hmask : q.mask_ = 2 ^ k - 1)
    (hh : q.head_ < 2 ^ k) (ht : q.tail_ < 2 ^ k) :
    (q.head_ = q.tail_ → q.dequeue = (q, (none : Option α))) ∧
    ((q.tail_ + 1) &&& q.mask_ = q.head_ →
      q.enqueue v = (q, false) ∧ ((q.dequeue).1.enqueue v).2 = true) := by
  have hM : 2 ≤ 2 ^ k := by
    calc 2 = 2 ^ 1 := rfl
    _ ≤ 2 ^ k := Nat.pow_le_pow_right (by omega) hk
  constructor
  · intro hempty
    simp [LockFreeQueue.dequeue, hempty]
  · intro hfull
    rw [hmask, Nat.and_pow_two_sub_one_eq_mod] at hfull
    have htail1 : (q.tail_ + 1) % 2 ^ k
        = if q.tail_ + 1 = 2 ^ k then 0 else q.tail_ + 1 := by
      split
      · next heq => rw [heq, Nat.mod_self]
      · next hne => exact Nat.mod_eq_of_lt (by omega)
    have hneq : q.head_ ≠ q.tail_ := by
      intro heq
      rw [htail1] at hfull
      split at hfull <;> omega
    have hhead1 : (q.head_ + 1) % 2 ^ k
        = if q.head_ + 1 = 2 ^ k then 0 else q.head_ + 1 := by
      split
      · next heq => rw [heq, Nat.mod_self]
      · next hne => exact Nat.mod_eq_of_lt (by omega)
    have hne2 : q.head_ ≠ (q.head_ + 1) % 2 ^ k := by
      rw [hhead1]
      split <;> omega
    constructor
    · unfold LockFreeQueue.enqueue
      rw [hmask, Nat.and_pow_two_sub_one_eq_mod, hfull]
      simp
    · have hdeq : q.dequeue =
          ({ q with head_ := (q.head_ + 1) &&& q.mask_ },
            some (q.buffer_.getD q.head_ default)) := by
        unfold LockFreeQueue.dequeue
        rw [if_neg hneq]
      rw [hdeq]
      unfold LockFreeQueue.enqueue
      simp only [hmask, Nat.and_pow_two_sub_one_eq_mod]
      rw [hfull, if_neg hne2]

/-- Concrete full capacity-4 queue: slots 1, 2, 3 occupied, head 0,
tail 3. -/
def qFull : LockFreeQueue Nat :=
  { buffer_ := [1, 2, 3, 0]
    head_ := 0
    tail_ := 3
    capacity_ := 4
    mask_ := 3 }

/-- C6 (witness): the amended theorem applied to the concrete full
capacity-4 queue. -/
theorem C6_amended_witness :
    ((1 : Nat) ≤ 2 ∧ qFull.mask_ = 2 ^ 2 - 1 ∧ qFull.head_ < 2 ^ 2 ∧
      qFull.tail_ < 2 ^ 2 ∧ (qFull.tail_ + 1) &&& qFull.mask_ = qFull.head_) ∧
    (qFull.enqueue 9 = (qFull, false) ∧
      ((qFull.dequeue).1.enqueue 9).2 = true) :=
  ⟨⟨by decide, by decide, by decide, by decide, by decide⟩,
    (C6_amended qFull 2 9 (by decide) (by decide) (by decide)
      (by decide)).2 (by decide)⟩

end Nexus
